import Mathlib

/-!
Verification development for the gekko3 Risk Gate (Cloudflare worker).

The definitions below are a shallow embedding of the TypeScript sources:
`src/lib/security.ts` (canonical signing), `src/config.ts` (the
Constitution), `src/GatekeeperDO.ts` (proposal evaluation, processing,
admin endpoints, end-of-day enforcement) and `src/lib/tradier.ts`
(multi-leg order payloads).  External effects (broker HTTP calls, the D1
database, the system clock, WebCrypto) are passed in explicitly as data or
function parameters; durable-object state is threaded as an explicit state
value.
-/

namespace Gekko

/-- JSON values as manipulated by the signing code in `src/lib/security.ts`.
Numbers are modelled as integers: the claims and their witnesses only need
integer payload values, which avoids modelling JavaScript float printing. -/
inductive Json where
  | null : Json
  | bool (b : Bool) : Json
  | num (n : Int) : Json
  | str (s : String) : Json
  | arr (elems : List Json) : Json
  | obj (fields : List (String × Json)) : Json

mutual

/-- Compact serialization mirroring `JSON.stringify`: no whitespace, object
fields serialized in the order they appear in the object.  String escaping
is not modelled; keys and values used in this development contain no
characters that would need escapes. -/
def stringifyJson : Json → String
  | Json.null => "null"
  | Json.bool b => if b then "true" else "false"
  | Json.num n => toString n
  | Json.str s => "\"" ++ s ++ "\""
  | Json.arr elems => "[" ++ stringifyElems elems ++ "]"
  | Json.obj fields => "\x7b" ++ stringifyFields fields ++ "\x7d"

/-- Comma-separated serialization of array elements. -/
def stringifyElems : List Json → String
  | [] => ""
  | [x] => stringifyJson x
  | x :: y :: rest => stringifyJson x ++ "," ++ stringifyElems (y :: rest)

/-- Comma-separated serialization of object fields (`"key":value`). -/
def stringifyFields : List (String × Json) → String
  | [] => ""
  | [(k, v)] => "\"" ++ k ++ "\":" ++ stringifyJson v
  | (k, v) :: f :: rest =>
      "\"" ++ k ++ "\":" ++ stringifyJson v ++ "," ++ stringifyFields (f :: rest)

end

/-- Lexicographic comparison of character lists by code point, modelling
JavaScript's default `Array.prototype.sort()` comparison on strings
(UTF-16 code-unit order, which agrees with code-point order on the ASCII
keys appearing in proposals). -/
def lexLeB : List Char → List Char → Bool
  | [], _ => true
  | _ :: _, [] => false
  | a :: as, b :: bs =>
    if a.toNat < b.toNat then true
    else if b.toNat < a.toNat then false
    else lexLeB as bs

/-- One insertion step of the key sort. -/
def insertKeySorted (x : String) (l : List String) : List String :=
  match l with
  | [] => [x]
  | y :: ys => if lexLeB x.data y.data then x :: y :: ys else y :: insertKeySorted x ys

/-- Model of `Object.keys(payloadForSigning).sort()` from
`src/lib/security.ts` (insertion sort; any comparison sort yields this
result because object keys are pairwise distinct). -/
def sortKeys (l : List String) : List String := l.foldr insertKeySorted []

/-- JavaScript property read `payloadForSigning[key]` on an object
represented as an association list.  JavaScript objects cannot contain
duplicate keys, so the first binding wins. -/
def jsGet (k : String) : List (String × Json) → Option Json
  | [] => none
  | kv :: rest => if kv.1 = k then some kv.2 else jsGet k rest

/-- Canonical signing payload computed by `verifySignature` in
`src/lib/security.ts`: spread-copy the proposal object, delete the
`signature` field, sort the top-level keys, rebuild the object in sorted
key order, and `JSON.stringify` it compactly.  Nested objects keep their
original key order — the key sort is applied at the top level only. -/
def canonicalPayload (proposal : List (String × Json)) : String :=
  let payloadForSigning := proposal.filter (fun kv => kv.1 ≠ "signature")
  let sortedKeys := sortKeys (payloadForSigning.map Prod.fst)
  let sortedPayload := sortedKeys.filterMap
    (fun k => (jsGet k payloadForSigning).map (fun v => (k, v)))
  stringifyJson (Json.obj sortedPayload)

/-! Data model of the Gate, from `src/GatekeeperDO.ts` and `src/config.ts`.
Money and percentages are JavaScript numbers used only in comparisons and
exact arithmetic here, modelled as rationals. -/

/-- Proposal side (`'OPEN' | 'CLOSE'`). -/
inductive ProposalSide where
  | OPEN : ProposalSide
  | CLOSE : ProposalSide
deriving DecidableEq, Repr

/-- Leg side relative to the underlying position (`'SELL' | 'BUY'`). -/
inductive LegSide where
  | SELL : LegSide
  | BUY : LegSide
deriving DecidableEq, Repr

/-- One proposal leg, restricted to the fields the Gate reads:
`leg.symbol`, `leg.expiration`, `leg.quantity`, `leg.side`. -/
structure ProposalLeg where
  symbol : String
  expiration : Option String
  quantity : Int
  side : LegSide
deriving DecidableEq, Repr

/-- Proposal context, restricted to the fields the Gate interprets
(`vix`, `flow_state`, `trend_state`); the rest of the dictionary is
opaque to the Gate and only stored verbatim. -/
structure ProposalContext where
  vix : Option ℚ
  flow_state : Option String
  trend_state : Option String
deriving DecidableEq, Repr

/-- A trade proposal as read by `evaluateProposal` and `processProposal`.
`price` is `none` when the JSON field is `undefined` or `null`. -/
structure TradeProposal where
  id : String
  timestamp : Int
  symbol : String
  strategy : String
  side : ProposalSide
  quantity : Int
  price : Option ℚ
  legs : List ProposalLeg
  context : ProposalContext
deriving DecidableEq, Repr

/-- Phase C risk limits block of the Constitution. -/
structure RiskLimits where
  maxCorrelatedPositions : Nat
  maxTotalPositions : Nat
deriving DecidableEq, Repr

/-- The Constitution shape (`RiskConfig` in `src/types.ts` as read by the
Gate).  `correlationGroups` and `riskLimits` are optional because the code
guards them with truthiness checks, and `forceEodCloseEt` is `none` for
`null`. -/
structure RiskConfig where
  allowedSymbols : List String
  allowedStrategies : List String
  maxOpenPositions : Nat
  maxConcentrationPerSymbol : Nat
  maxDailyLossPercent : ℚ
  minDte : Int
  maxDte : Int
  correlationGroups : Option (List (String × List String))
  riskLimits : Option RiskLimits
  staleProposalMs : Int
  forceEodCloseEt : Option String
deriving DecidableEq, Repr

/-- The CONSTITUTION of `src/config.ts` (the variant the claims cite:
CALENDAR_SPREAD allowed, 5% daily loss, `forceEodCloseEt: null`). -/
def CONSTITUTION : RiskConfig :=
  { allowedSymbols := ["SPY", "QQQ", "IWM", "DIA"]
  , allowedStrategies :=
      ["CREDIT_SPREAD", "IRON_CONDOR", "IRON_BUTTERFLY", "RATIO_SPREAD", "CALENDAR_SPREAD"]
  , maxOpenPositions := 20
  , maxConcentrationPerSymbol := 20
  , maxDailyLossPercent := mkRat 5 100
  , minDte := 0
  , maxDte := 60
  , correlationGroups :=
      some [("US_INDICES", ["SPY", "QQQ", "IWM", "DIA"]), ("TECH", ["QQQ", "XLK"])]
  , riskLimits := some { maxCorrelatedPositions := 10, maxTotalPositions := 20 }
  , staleProposalMs := 10000
  , forceEodCloseEt := none }

/-- Causes the system can be locked for (the `lockSystem` call sites).
Numeric payloads stand for the numbers interpolated into the reason
strings; decimal formatting is not modelled. -/
inductive LockCause where
  | manual (reason : String)
  | dailyLossLimit (lossPct : ℚ)
  | emergencyLiquidation
  | eodClose (closeEt : String)
deriving DecidableEq, Repr

/-- Rejection reasons of `evaluateProposal`, one constructor per
`rejectionReason` string, carrying the data interpolated into it. -/
inductive Reason where
  | invalidSignature
  | systemIsLocked (lockReason : Option LockCause)
  | staleProposal (ageMs maxMs : Int)
  | symbolNotAllowed (symbol : String)
  | strategyNotAllowed (strategy : String)
  | limitPriceRequired
  | creditSpreadLegCount (got : Nat)
  | ironCondorLegCount (got : Nat)
  | ironButterflyLegCount (got : Nat)
  | ratioSpreadLegCount (got : Nat)
  | ratioSpreadEqualQuantities
  | unknownStrategyStructure (strategy : String)
  | atLeastOneLeg
  | legExpirationRequired
  | dteOutOfRange (dte minDte maxDte : Int)
  | calendarLock (today : String)
  | dailyLossLimitExceeded (lossPct limitPct : ℚ)
  | maxOpenPositionsReached (count maxAllowed : Nat)
  | correlationLimitHit (count : Nat) (bias groupName : String) (maxAllowed : Nat)
  | maxConcentrationReached (symbol : String) (count maxAllowed : Nat)
  | vixNotAvailable
  | vixTooHigh (vix : ℚ)
  | flowStateUnknown
deriving DecidableEq, Repr

/-- Position metadata stored per broker order id (correlation guard). -/
structure PositionMeta where
  symbol : String
  bias : String
  strategy : String
deriving DecidableEq, Repr

/-- Evaluation outcome status. -/
inductive ProposalStatus where
  | APPROVED
  | REJECTED
deriving DecidableEq, Repr

/-- A row of the D1 `proposals` table (timestamp in seconds). -/
structure ProposalRow where
  id : String
  timestamp : Int
  symbol : String
  strategy : String
  side : ProposalSide
  quantity : Int
  status : ProposalStatus
  rejectionReason : Option Reason
deriving DecidableEq, Repr

/-- A row of the D1 `orders` table. -/
structure OrderRow where
  id : String
  proposal_id : String
  symbol : String
  status : String
  quantity : Int
deriving DecidableEq, Repr

/-- A row of the D1 `positions` snapshot table. -/
structure PositionRow where
  symbol : String
  quantity : Int
deriving DecidableEq, Repr

/-- Durable state owned by the Gatekeeper actor: the in-memory lock mirror
and equity fields, the D1 tables, and durable-object storage (restricted
dates, position metadata).  The proposals and orders lists are kept in
insertion order, so `created_at` order coincides with list order. -/
structure GateState where
  locked : Bool
  lockReason : Option LockCause
  restrictedDates : List String
  startOfDayEquity : Option ℚ
  equityCache : Option ℚ
  proposals : List ProposalRow
  orders : List OrderRow
  positions : List PositionRow
  positionMetadata : List (String × PositionMeta)
deriving DecidableEq, Repr

/-- Results of the two broker fetches performed by `syncAccountState`:
`balances` is the `total_equity` from `getBalances` (`none` when the fetch
throws), `positions` the broker positions from `getPositions`. -/
structure SyncEnv where
  balances : Option ℚ
  positions : Option (List PositionRow)

/-- Per-request external inputs of one Gate request: the clock, the result
of WebCrypto signature verification, the calendar date, `calculateDTE`
(date parsing and ceiling division against the clock, abstracted as a
function of the expiration string), the wall-clock time in ET used by
`enforceEOD`, and the broker fetches. -/
structure EvalEnv where
  now : Int
  sigValid : Bool
  today : String
  dteOf : String → Int
  etHour : Nat
  etMinute : Nat
  sync : SyncEnv

/-- The `syncAccountState` method: on a successful balances fetch, refresh
the equity cache and set start-of-day equity if missing; on a successful
positions fetch, replace the positions snapshot with broker truth.  A
throwing fetch leaves the remaining state unchanged (the catch only
logs). -/
def applySync (sync : SyncEnv) (st : GateState) : GateState :=
  match sync.balances with
  | none => st
  | some eq =>
    let st1 := { st with equityCache := some eq
                       , startOfDayEquity := some (st.startOfDayEquity.getD eq) }
    match sync.positions with
    | none => st1
    | some ps => { st1 with positions := ps }

/-- The `getCurrentEquity` method as it behaves inside an evaluation that
just ran `syncAccountState`: a successful sync leaves a fresh cache, and a
failed sync makes the re-fetch fail the same way (same broker call in the
same request), falling back to `equityCache ?? startOfDayEquity ?? 0`. -/
def getCurrentEquity (sync : SyncEnv) (st : GateState) : ℚ :=
  match sync.balances with
  | some eq => eq
  | none => st.equityCache.getD (st.startOfDayEquity.getD 0)

/-- The `getDailyLossPercent` method:
`(startOfDayEquity − currentEquity) / startOfDayEquity`, and `0` when
start-of-day equity is unset or zero. -/
def getDailyLossPercent (sync : SyncEnv) (st : GateState) : ℚ :=
  match st.startOfDayEquity with
  | none => 0
  | some s => if s = 0 then 0 else (s - getCurrentEquity sync st) / s

/-- `getOpenPositionsCount`:
`SELECT COUNT(DISTINCT symbol) FROM positions WHERE quantity != 0`. -/
def openPositionsCount (st : GateState) : Nat :=
  (((st.positions.filter (fun r => r.quantity ≠ 0)).map (fun r => r.symbol)).dedup).length

/-- `getSymbolPositionCount`:
`SELECT COUNT(*) FROM positions WHERE symbol = ? AND quantity != 0`. -/
def symbolPositionCount (st : GateState) (symbol : String) : Nat :=
  (st.positions.filter (fun r => r.symbol = symbol ∧ r.quantity ≠ 0)).length

/-- Outcome record of `evaluateProposal`. -/
structure ProposalEvaluation where
  status : ProposalStatus
  rejectionReason : Option Reason
deriving DecidableEq, Repr

/-- Step 1 of `evaluateProposal`: signature verification outcome. -/
def sigCheck (env : EvalEnv) : Option Reason :=
  if env.sigValid then none else some Reason.invalidSignature

/-- Step 2: system lock check. -/
def lockCheck (st : GateState) : Option Reason :=
  if st.locked then some (Reason.systemIsLocked st.lockReason) else none

/-- Step 3: freshness check (`ageMs > staleProposalMs` rejects). -/
def staleCheck (c : RiskConfig) (env : EvalEnv) (p : TradeProposal) : Option Reason :=
  if env.now - p.timestamp > c.staleProposalMs then
    some (Reason.staleProposal (env.now - p.timestamp) c.staleProposalMs)
  else none

/-- Step 4: allowed-symbol check. -/
def symbolCheck (c : RiskConfig) (p : TradeProposal) : Option Reason :=
  if p.symbol ∈ c.allowedSymbols then none else some (Reason.symbolNotAllowed p.symbol)

/-- Step 4 continued: allowed-strategy check, enforced for OPEN only. -/
def strategyCheck (c : RiskConfig) (p : TradeProposal) : Option Reason :=
  if p.side = ProposalSide.OPEN ∧ p.strategy ∉ c.allowedStrategies then
    some (Reason.strategyNotAllowed p.strategy)
  else none

/-- Strict limit-price check (`undefined`, `null` or `≤ 0` rejects). -/
def priceCheck (p : TradeProposal) : Option Reason :=
  match p.price with
  | none => some Reason.limitPriceRequired
  | some pr => if pr ≤ 0 then some Reason.limitPriceRequired else none

/-- Step 4.b: structure validation, for OPEN proposals only; the `switch`
on the strategy string, whose default case rejects. -/
def structureCheck (p : TradeProposal) : Option Reason :=
  if p.side = ProposalSide.OPEN then
    if p.strategy = "CREDIT_SPREAD" then
      if p.legs.length ≠ 2 then some (Reason.creditSpreadLegCount p.legs.length) else none
    else if p.strategy = "IRON_CONDOR" then
      if p.legs.length ≠ 4 then some (Reason.ironCondorLegCount p.legs.length) else none
    else if p.strategy = "IRON_BUTTERFLY" then
      if p.legs.length ≠ 4 then some (Reason.ironButterflyLegCount p.legs.length) else none
    else if p.strategy = "RATIO_SPREAD" then
      match p.legs with
      | [l0, l1] =>
        if l0.quantity = l1.quantity then some Reason.ratioSpreadEqualQuantities else none
      | _ => some (Reason.ratioSpreadLegCount p.legs.length)
    else some (Reason.unknownStrategyStructure p.strategy)
  else none

/-- DTE check, for OPEN proposals only (empty leg list and missing or
empty expiration strings are rejected first; an empty string is falsy in
JavaScript). -/
def dteCheck (c : RiskConfig) (env : EvalEnv) (p : TradeProposal) : Option Reason :=
  if p.side = ProposalSide.OPEN then
    match p.legs with
    | [] => some Reason.atLeastOneLeg
    | firstLeg :: _ =>
      match firstLeg.expiration with
      | none => some Reason.legExpirationRequired
      | some e =>
        if e = "" then some Reason.legExpirationRequired
        else if env.dteOf e < c.minDte ∨ env.dteOf e > c.maxDte then
          some (Reason.dteOutOfRange (env.dteOf e) c.minDte c.maxDte)
        else none
  else none

/-- Event calendar check, for OPEN proposals only. -/
def calendarCheck (env : EvalEnv) (st : GateState) (p : TradeProposal) : Option Reason :=
  if p.side = ProposalSide.OPEN ∧ env.today ∈ st.restrictedDates then
    some (Reason.calendarLock env.today)
  else none

/-- Max-open-positions check, for OPEN proposals only. -/
def maxPositionsCheck (c : RiskConfig) (st : GateState) (p : TradeProposal) : Option Reason :=
  if p.side = ProposalSide.OPEN ∧ openPositionsCount st ≥ c.maxOpenPositions then
    some (Reason.maxOpenPositionsReached (openPositionsCount st) c.maxOpenPositions)
  else none

/-- First correlation group whose symbol list contains the symbol. -/
def findGroup (groups : List (String × List String)) (symbol : String) :
    Option (String × List String) :=
  groups.find? (fun g => symbol ∈ g.2)

/-- Correlation guard (Phase C): OPEN proposals with a truthy, non-neutral
bias, when the symbol belongs to a correlation group and
`riskLimits?.maxCorrelatedPositions` is truthy (nonzero). -/
def correlationCheck (c : RiskConfig) (st : GateState) (p : TradeProposal) : Option Reason :=
  match p.context.trend_state with
  | none => none
  | some bias =>
    if p.side = ProposalSide.OPEN ∧ bias ≠ "" ∧ bias ≠ "neutral" then
      match c.correlationGroups with
      | none => none
      | some groups =>
        match findGroup groups p.symbol with
        | none => none
        | some (groupName, groupSymbols) =>
          match c.riskLimits with
          | none => none
          | some rl =>
            if rl.maxCorrelatedPositions = 0 then none
            else
              let correlatedCount := ((st.positionMetadata.map Prod.snd).filter
                (fun m => m.symbol ∈ groupSymbols ∧ m.bias = bias)).length
              if correlatedCount ≥ rl.maxCorrelatedPositions then
                some (Reason.correlationLimitHit correlatedCount bias groupName
                  rl.maxCorrelatedPositions)
              else none
    else none

/-- Per-symbol concentration check, for OPEN proposals only. -/
def concentrationCheck (c : RiskConfig) (st : GateState) (p : TradeProposal) : Option Reason :=
  if p.side = ProposalSide.OPEN ∧ symbolPositionCount st p.symbol ≥ c.maxConcentrationPerSymbol then
    some (Reason.maxConcentrationReached p.symbol (symbolPositionCount st p.symbol)
      c.maxConcentrationPerSymbol)
  else none

/-- Step 6: context checks, for OPEN proposals only: VIX present, `≤ 28`,
and flow state not the literal string `UNKNOWN`. -/
def contextCheck (p : TradeProposal) : Option Reason :=
  if p.side = ProposalSide.OPEN then
    match p.context.vix with
    | none => some Reason.vixNotAvailable
    | some v =>
      if v > 28 then some (Reason.vixTooHigh v)
      else if p.context.flow_state = some "UNKNOWN" then some Reason.flowStateUnknown
      else none
  else none

/-- All checks of `evaluateProposal` that run before the structure
validation, in source order (first failure wins). -/
def preStructureCheck (c : RiskConfig) (env : EvalEnv) (st : GateState)
    (p : TradeProposal) : Option Reason :=
  match sigCheck env with
  | some r => some r
  | none =>
    match lockCheck st with
    | some r => some r
    | none =>
      match staleCheck c env p with
      | some r => some r
      | none =>
        match symbolCheck c p with
        | some r => some r
        | none =>
          match strategyCheck c p with
          | some r => some r
          | none => priceCheck p

/-- All checks of `evaluateProposal` that run before the daily-loss check,
in source order. -/
def preDailyLossCheck (c : RiskConfig) (env : EvalEnv) (st : GateState)
    (p : TradeProposal) : Option Reason :=
  match preStructureCheck c env st p with
  | some r => some r
  | none =>
    match structureCheck p with
    | some r => some r
    | none =>
      match dteCheck c env p with
      | some r => some r
      | none => calendarCheck env st p

/-- The checks that run after the daily-loss check, in source order. -/
def postDailyLossCheck (c : RiskConfig) (st : GateState) (p : TradeProposal) : Option Reason :=
  match maxPositionsCheck c st p with
  | some r => some r
  | none =>
    match correlationCheck c st p with
    | some r => some r
    | none =>
      match concentrationCheck c st p with
      | some r => some r
      | none => contextCheck p

/-- The `lockSystem` method (sets the in-memory flag and reason and
persists `LOCKED` to the `system_status` row). -/
def lockSystem (cause : LockCause) (st : GateState) : GateState :=
  { st with locked := true, lockReason := some cause }

/-- The `unlockSystem` method. -/
def unlockSystem (st : GateState) : GateState :=
  { st with locked := false, lockReason := none }

/-- The `evaluateProposal` method of `src/GatekeeperDO.ts`: initialize
state, sync account state from the broker, then run the rule pipeline in
source order.  Returns the evaluation and the updated durable state; the
only mutation performed by the rule pipeline itself is the auto-lock on a
daily-loss breach. -/
def evaluateProposal (c : RiskConfig) (env : EvalEnv) (st0 : GateState)
    (p : TradeProposal) : ProposalEvaluation × GateState :=
  match preDailyLossCheck c env (applySync env.sync st0) p with
  | some r =>
    ({ status := ProposalStatus.REJECTED, rejectionReason := some r },
     applySync env.sync st0)
  | none =>
    if getDailyLossPercent env.sync (applySync env.sync st0) ≥ c.maxDailyLossPercent then
      ({ status := ProposalStatus.REJECTED
       , rejectionReason := some (Reason.dailyLossLimitExceeded
           (getDailyLossPercent env.sync (applySync env.sync st0)) c.maxDailyLossPercent) },
       lockSystem (LockCause.dailyLossLimit
         (getDailyLossPercent env.sync (applySync env.sync st0))) (applySync env.sync st0))
    else
      match postDailyLossCheck c (applySync env.sync st0) p with
      | some r =>
        ({ status := ProposalStatus.REJECTED, rejectionReason := some r },
         applySync env.sync st0)
      | none =>
        ({ status := ProposalStatus.APPROVED, rejectionReason := none },
         applySync env.sync st0)

/-- Request headers read by `extractSignatureFromHeaders`; `none` models an
absent header. -/
structure ReqHeaders where
  xGwSignature : Option String
  authorization : Option String
  xSignature : Option String
deriving DecidableEq, Repr

/-- `extractSignatureFromHeaders` from `src/lib/security.ts`:
`X-GW-Signature` first, then `Authorization: HMAC <sig>`, then the legacy
`X-Signature`; empty header values are falsy. -/
def extractSignatureFromHeaders (h : ReqHeaders) : Option String :=
  if h.xGwSignature.getD "" ≠ "" then h.xGwSignature
  else if (h.authorization.getD "").startsWith "HMAC " then
    some ((h.authorization.getD "").drop 5)
  else if h.xSignature.getD "" ≠ "" then h.xSignature
  else none

/-- A request to the `/process` route: headers plus the result of
`request.json()` (`none` when the body fails to parse, which the outer
catch turns into a 400). -/
structure GateRequest where
  headers : ReqHeaders
  body : Option TradeProposal
deriving DecidableEq, Repr

/-- Broker order leg sides accepted by Tradier. -/
inductive BrokerLegSide where
  | sell_to_open
  | buy_to_open
  | buy_to_close
  | sell_to_close
deriving DecidableEq, Repr

/-- The side mapping in `processProposal`: opening maps `SELL` to
`sell_to_open` and anything else to `buy_to_open`; closing maps `SELL` to
`buy_to_close` and anything else to `sell_to_close`. -/
def mapLegSide (pside : ProposalSide) (lside : LegSide) : BrokerLegSide :=
  match pside, lside with
  | ProposalSide.OPEN, LegSide.SELL => BrokerLegSide.sell_to_open
  | ProposalSide.OPEN, LegSide.BUY => BrokerLegSide.buy_to_open
  | ProposalSide.CLOSE, LegSide.SELL => BrokerLegSide.buy_to_close
  | ProposalSide.CLOSE, LegSide.BUY => BrokerLegSide.sell_to_close

/-- The multi-leg order payload handed to `tradierClient.placeOrder`
(`class`, `type` and `duration` are the TypeScript field names). -/
structure OrderPayload where
  orderClass : String
  symbol : String
  orderType : String
  price : Option ℚ
  duration : String
  optionSymbols : List String
  sides : List BrokerLegSide
  quantities : List Int
deriving DecidableEq, Repr

/-- Construction of the multi-leg order inside `processProposal`: one
entry per leg in leg order, order type `credit` for OPEN and `debit` for
CLOSE, duration `day`, limit price from the proposal. -/
def buildMultilegOrder (p : TradeProposal) : OrderPayload :=
  { orderClass := "multileg"
  , symbol := p.symbol
  , orderType := if p.side = ProposalSide.OPEN then "credit" else "debit"
  , price := p.price
  , duration := "day"
  , optionSymbols := p.legs.map (fun l => l.symbol)
  , sides := p.legs.map (fun l => mapLegSide p.side l.side)
  , quantities := p.legs.map (fun l => l.quantity) }

/-- The broker call of one request: `placeOrder` returns the created
order id, or an error message when order submission fails. -/
structure ExecEnv where
  placeOrder : OrderPayload → Except String String

/-- Bodies of the `/process` responses. -/
inductive RespBody where
  | missingSignature
  | badRequest (error : String)
  | rejected (reason : Option Reason)
  | approved (order_id proposal_id : String)
  | approvedButExecutionFailed (error : String)
deriving DecidableEq, Repr

/-- An HTTP response of the proposal route. -/
structure HttpResponse where
  status : Nat
  body : RespBody
deriving DecidableEq, Repr

/-- Strategies supported for auto-execution of OPEN proposals. -/
def supportedStrategies : List String :=
  ["CREDIT_SPREAD", "IRON_CONDOR", "IRON_BUTTERFLY", "RATIO_SPREAD"]

/-- The `savePositionMetadata` method (`stored[tradeId] = data`).
Represented as remove-then-append; only the key-to-value mapping is
observable. -/
def savePositionMetadata (tradeId : String) (data : PositionMeta) (st : GateState) : GateState :=
  { st with positionMetadata :=
      (st.positionMetadata.filter (fun kv => kv.1 ≠ tradeId)) ++ [(tradeId, data)] }

/-- The `removePositionMetadata` method. -/
def removePositionMetadata (tradeId : String) (st : GateState) : GateState :=
  { st with positionMetadata := st.positionMetadata.filter (fun kv => kv.1 ≠ tradeId) }

/-- The order lookup for CLOSE executions: most recent order whose joined
proposal matches the symbol and strategy with side OPEN (`ORDER BY
created_at DESC LIMIT 1`; list order is insertion order). -/
def findOpenOrderId (st : GateState) (symbol strategy : String) : Option String :=
  ((st.orders.filter (fun o =>
      match st.proposals.find? (fun pr => pr.id = o.proposal_id) with
      | some pr => pr.symbol = symbol ∧ pr.strategy = strategy ∧ pr.side = ProposalSide.OPEN
      | none => false)).getLast?).map (fun o => o.id)

/-- The `processProposal` method: extract the signature header (401 when
absent, with no ledger write), parse the body (a parse failure reaches the
outer catch, 400, no ledger write), evaluate, append the audit row to the
proposals ledger, and then answer 403 for rejections or execute the order
for approvals.  A failing order submission answers 500 with
`APPROVED_BUT_EXECUTION_FAILED` and performs no further state change. -/
def processProposal (c : RiskConfig) (env : EvalEnv) (exec : ExecEnv)
    (req : GateRequest) (st0 : GateState) : HttpResponse × GateState :=
  match extractSignatureFromHeaders req.headers with
  | none => ({ status := 401, body := RespBody.missingSignature }, st0)
  | some _ =>
    match req.body with
    | none => ({ status := 400, body := RespBody.badRequest "invalid JSON body" }, st0)
    | some p =>
      let ev := evaluateProposal c env st0 p
      let row : ProposalRow :=
        { id := p.id, timestamp := Int.fdiv p.timestamp 1000, symbol := p.symbol
        , strategy := p.strategy, side := p.side, quantity := p.quantity
        , status := ev.1.status, rejectionReason := ev.1.rejectionReason }
      let st2 := { ev.2 with proposals := ev.2.proposals ++ [row] }
      match ev.1.status with
      | ProposalStatus.REJECTED =>
          ({ status := 403, body := RespBody.rejected ev.1.rejectionReason }, st2)
      | ProposalStatus.APPROVED =>
        if p.side = ProposalSide.CLOSE ∨ p.strategy ∈ supportedStrategies then
          match exec.placeOrder (buildMultilegOrder p) with
          | Except.error e =>
              ({ status := 500, body := RespBody.approvedButExecutionFailed e }, st2)
          | Except.ok orderId =>
            let orderRow : OrderRow :=
              { id := orderId, proposal_id := p.id, symbol := p.symbol
              , status := "pending", quantity := p.quantity }
            let st3 := { st2 with orders := st2.orders ++ [orderRow] }
            let st4 :=
              match p.side with
              | ProposalSide.OPEN =>
                let bias :=
                  match p.context.trend_state with
                  | some b => if b = "" then "neutral" else b
                  | none => "neutral"
                savePositionMetadata orderId
                  { symbol := p.symbol, bias := bias, strategy := p.strategy } st3
              | ProposalSide.CLOSE =>
                match findOpenOrderId st3 p.symbol p.strategy with
                | some oid => removePositionMetadata oid st3
                | none => st3
            ({ status := 200, body := RespBody.approved orderId p.id }, st4)
        else
          ({ status := 500
           , body := RespBody.approvedButExecutionFailed
               ("Unsupported strategy for execution: " ++ p.strategy) }, st2)

/-- Folding a sequence of proposal requests through the single-writer
actor (each request with its own external inputs). -/
def processTrace (c : RiskConfig)
    (steps : List (EvalEnv × ExecEnv × GateRequest)) (st : GateState) : GateState :=
  match steps with
  | [] => st
  | s :: rest => processTrace c rest (processProposal c s.1 s.2.1 s.2.2 st).2

/-- The error thrown by `enforceEOD` when `forceEodCloseEt` is `null`:
calling `.split(':')` on `null` raises a TypeError. -/
inductive EodError where
  | typeErrorNullSplit
deriving DecidableEq, Repr

/-- The `enforceEOD` method: split `forceEodCloseEt` on `:`, parse the
two components as numbers, and lock the system when the current ET time
has reached the close time.  A `null` configuration value makes the
`.split` call throw.  An unparsable component is `NaN` in JavaScript and
every `NaN` comparison is false, modelled by the fall-through `ok`. -/
def enforceEOD (c : RiskConfig) (etHour etMinute : Nat) (st : GateState) :
    Except EodError GateState :=
  match c.forceEodCloseEt with
  | none => Except.error EodError.typeErrorNullSplit
  | some timeStr =>
    match ((timeStr.splitOn ":").get? 0).bind (fun s => s.toNat?),
          ((timeStr.splitOn ":").get? 1).bind (fun s => s.toNat?) with
    | some closeHour, some closeMinute =>
      if etHour * 60 + etMinute ≥ closeHour * 60 + closeMinute then
        Except.ok (lockSystem (LockCause.eodClose timeStr) st)
      else Except.ok st
    | _, _ => Except.ok st

/-- Bodies of worker-level responses (admin endpoints, dashboard,
routing). -/
inductive WorkerBody where
  | proposal (b : RespBody)
  | locked (reason : Option LockCause)
  | unlocked
  | liquidated (results : List String)
  | heartbeatOk
  | statusView (locked : Bool)
  | calendarUpdated (count : Nat)
  | alarmTriggered
  | html
  | adminError (msg : String)
  | notFound
  | corsPreflight
deriving DecidableEq, Repr

/-- A worker-level HTTP response. -/
structure WorkerResponse where
  status : Nat
  body : WorkerBody
deriving DecidableEq, Repr

/-- A request as the main worker sees it.  The three body fields are the
outcome of `request.json()` under the shape each route expects (`none`
models a body that fails to parse). -/
structure WorkerRequest where
  path : String
  method : String
  headers : ReqHeaders
  proposalBody : Option TradeProposal
  lockBody : Option (Option String)
  calendarBody : Option (List String)
deriving DecidableEq, Repr

/-- The `lockSystemEndpoint` method: parse the body (500 on a parse
failure, without locking), then lock with the given or default reason. -/
def lockSystemEndpoint (body : Option (Option String)) (st : GateState) :
    WorkerResponse × GateState :=
  match body with
  | none => ({ status := 500, body := WorkerBody.adminError "invalid JSON" }, st)
  | some reasonOpt =>
    let st1 := lockSystem (LockCause.manual (reasonOpt.getD "Manual lock")) st
    ({ status := 200, body := WorkerBody.locked st1.lockReason }, st1)

/-- The `unlockSystemEndpoint` method: unconditionally unlock and answer
`UNLOCKED` (the request body and headers are never read). -/
def unlockSystemEndpoint (st : GateState) : WorkerResponse × GateState :=
  ({ status := 200, body := WorkerBody.unlocked }, unlockSystem st)

/-- The `emergencyCloseAll` method: lock first, then for every distinct
symbol with a nonzero position cancel its pending orders at the broker.
The third component lists the broker order ids whose cancellation was
requested. -/
def emergencyCloseAll (st : GateState) : WorkerResponse × GateState × List String :=
  let st1 := lockSystem LockCause.emergencyLiquidation st
  let symbols := ((st1.positions.filter (fun r => r.quantity ≠ 0)).map (fun r => r.symbol)).dedup
  let canceled := (st1.orders.filter (fun o => o.symbol ∈ symbols ∧ o.status = "pending")).map
    (fun o => o.id)
  (({ status := 200, body := WorkerBody.liquidated symbols }, st1, canceled))

/-- The Durable Object `fetch` router of `src/GatekeeperDO.ts`.  The third
result component lists broker order ids whose cancellation was requested
(only the liquidate route cancels). -/
def gatekeeperFetch (c : RiskConfig) (env : EvalEnv) (exec : ExecEnv)
    (req : WorkerRequest) (st : GateState) : WorkerResponse × GateState × List String :=
  if req.path = "/process" ∧ req.method = "POST" then
    let r := processProposal c env exec { headers := req.headers, body := req.proposalBody } st
    ({ status := r.1.status, body := WorkerBody.proposal r.1.body }, r.2, [])
  else if req.path = "/lock" ∧ req.method = "POST" then
    let r := lockSystemEndpoint req.lockBody st
    (r.1, r.2, [])
  else if req.path = "/unlock" ∧ req.method = "POST" then
    let r := unlockSystemEndpoint st
    (r.1, r.2, [])
  else if req.path = "/admin/calendar" ∧ req.method = "POST" then
    match req.calendarBody with
    | some dates =>
        ({ status := 200, body := WorkerBody.calendarUpdated dates.length },
         { st with restrictedDates := dates }, [])
    | none => ({ status := 400, body := WorkerBody.adminError "Invalid JSON" }, st, [])
  else if req.path = "/liquidate" ∧ req.method = "POST" then
    emergencyCloseAll st
  else if req.path = "/status" ∧ req.method = "GET" then
    ({ status := 200, body := WorkerBody.statusView st.locked }, applySync env.sync st, [])
  else if req.path = "/heartbeat" ∧ req.method = "POST" then
    ({ status := 200, body := WorkerBody.heartbeatOk }, st, [])
  else if req.path = "/alarm" ∧ req.method = "POST" then
    match enforceEOD c env.etHour env.etMinute st with
    | Except.ok st1 => ({ status := 200, body := WorkerBody.alarmTriggered }, st1, [])
    | Except.error _ => ({ status := 500, body := WorkerBody.adminError "Internal Server Error" }, st, [])
  else ({ status := 404, body := WorkerBody.notFound }, st, [])

/-- The main worker `fetch` of `src/index.ts`: CORS preflight, the
dashboard, and the route table mapping public paths onto the Durable
Object routes.  No route performs any authentication of its own; the CORS
re-wrap preserves status and body. -/
def workerFetch (c : RiskConfig) (env : EvalEnv) (exec : ExecEnv)
    (req : WorkerRequest) (st : GateState) : WorkerResponse × GateState × List String :=
  if req.method = "OPTIONS" then
    ({ status := 200, body := WorkerBody.corsPreflight }, st, [])
  else if req.path = "/" ∨ req.path = "/dashboard" then
    ({ status := 200, body := WorkerBody.html }, st, [])
  else if req.path = "/v1/proposal" ∧ req.method = "POST" then
    gatekeeperFetch c env exec { req with path := "/process" } st
  else if req.path = "/v1/admin/lock" ∧ req.method = "POST" then
    gatekeeperFetch c env exec { req with path := "/lock" } st
  else if req.path = "/v1/admin/unlock" ∧ req.method = "POST" then
    gatekeeperFetch c env exec { req with path := "/unlock" } st
  else if req.path = "/v1/admin/liquidate" ∧ req.method = "POST" then
    gatekeeperFetch c env exec { req with path := "/liquidate" } st
  else if req.path = "/v1/status" ∧ req.method = "GET" then
    gatekeeperFetch c env exec { req with path := "/status" } st
  else if req.path = "/v1/heartbeat" ∧ req.method = "POST" then
    gatekeeperFetch c env exec { req with path := "/heartbeat" } st
  else ({ status := 404, body := WorkerBody.notFound }, st, [])

/-! Concrete sample inputs used by witnesses and counterexamples. -/

/-- Sample headers carrying a signature in `X-GW-Signature`. -/
def sampleHeaders : ReqHeaders :=
  { xGwSignature := some "ab3f", authorization := none, xSignature := none }

/-- Sample headers with no signature header at all. -/
def emptyHeaders : ReqHeaders :=
  { xGwSignature := none, authorization := none, xSignature := none }

/-- Sample OPEN credit-spread proposal (two legs, healthy context). -/
def sampleOpenProposal : TradeProposal :=
  { id := "prop-1", timestamp := 1000000, symbol := "SPY", strategy := "CREDIT_SPREAD"
  , side := ProposalSide.OPEN, quantity := 10, price := some 1
  , legs :=
      [ { symbol := "SPY260116P00420000", expiration := some "2026-01-16"
        , quantity := 10, side := LegSide.SELL }
      , { symbol := "SPY260116P00418000", expiration := some "2026-01-16"
        , quantity := 10, side := LegSide.BUY } ]
  , context := { vix := some 18, flow_state := some "RISK_ON", trend_state := some "bullish" } }

/-- Sample broker environment where no fetch succeeds (evaluation then
runs on cached data, with start-of-day equity unset). -/
def sampleSync : SyncEnv := { balances := none, positions := none }

/-- Sample request environment: valid signature, fresh clock, DTE 4. -/
def sampleEnv : EvalEnv :=
  { now := 1005000, sigValid := true, today := "2026-01-12", dteOf := fun _ => 4
  , etHour := 12, etMinute := 0, sync := sampleSync }

/-- Sample request environment whose signature verification failed. -/
def badSigEnv : EvalEnv :=
  { now := 1005000, sigValid := false, today := "2026-01-12", dteOf := fun _ => 4
  , etHour := 12, etMinute := 0, sync := sampleSync }

/-- Empty unlocked durable state. -/
def sampleState : GateState :=
  { locked := false, lockReason := none, restrictedDates := [], startOfDayEquity := none
  , equityCache := none, proposals := [], orders := [], positions := []
  , positionMetadata := [] }

/-- A manually locked durable state. -/
def sampleLockedState : GateState :=
  { sampleState with locked := true, lockReason := some (LockCause.manual "maintenance") }

/-- Broker that accepts the order. -/
def sampleExecOk : ExecEnv := { placeOrder := fun _ => Except.ok "ord-1001" }

/-- Broker whose order submission fails. -/
def sampleExecFail : ExecEnv :=
  { placeOrder := fun _ => Except.error "Tradier API error (400)" }

/-- Broker environment reporting equity 90000 against a 100000 start of
day: a 10% daily loss. -/
def lossSync : SyncEnv := { balances := some 90000, positions := some [] }

/-- Request environment for the daily-loss scenario. -/
def lossEnv : EvalEnv := { sampleEnv with sync := lossSync }

/-- Durable state with start-of-day equity 100000. -/
def lossState : GateState := { sampleState with startOfDayEquity := some 100000 }

/-- A malformed CREDIT_SPREAD carrying three legs. -/
def threeLegProposal : TradeProposal :=
  { sampleOpenProposal with
      legs := sampleOpenProposal.legs ++
        [ { symbol := "SPY260116P00416000", expiration := some "2026-01-16"
          , quantity := 10, side := LegSide.BUY } ] }

/-- The sample proposal with VIX exactly 28. -/
def vix28Proposal : TradeProposal :=
  { sampleOpenProposal with
      context := { vix := some 28, flow_state := some "RISK_ON"
                 , trend_state := some "bullish" } }

/-- The sample proposal with VIX 28.01. -/
def vix2801Proposal : TradeProposal :=
  { sampleOpenProposal with
      context := { vix := some (mkRat 2801 100), flow_state := some "RISK_ON"
                 , trend_state := some "bullish" } }

theorem lexLeB_total : ∀ a b : List Char, lexLeB a b = true ∨ lexLeB b a = true := by
  intro a
  induction a with
  | nil => intro b; left; rfl
  | cons x xs ih =>
    intro b
    cases b with
    | nil => right; rfl
    | cons y ys =>
      simp only [lexLeB]
      rcases Nat.lt_trichotomy x.toNat y.toNat with h | h | h
      · left; simp [h]
      · have h1 : ¬ x.toNat < y.toNat := by omega
        have h2 : ¬ y.toNat < x.toNat := by omega
        rcases ih ys with h3 | h3
        · left; simp [h1, h2, h3]
        · right; simp [h1, h2, h3]
      · right; simp [h]

theorem lexLeB_antisymm : ∀ a b : List Char,
    lexLeB a b = true → lexLeB b a = true → a = b := by
  intro a
  induction a with
  | nil =>
    intro b _ hba
    cases b with
    | nil => rfl
    | cons y ys => simp [lexLeB] at hba
  | cons x xs ih =>
    intro b hab hba
    cases b with
    | nil => simp [lexLeB] at hab
    | cons y ys =>
      simp only [lexLeB] at hab hba
      rcases Nat.lt_trichotomy x.toNat y.toNat with h | h | h
      · have h2 : ¬ y.toNat < x.toNat := by omega
        simp [h, h2] at hba
      · have h1 : ¬ x.toNat < y.toNat := by omega
        have h2 : ¬ y.toNat < x.toNat := by omega
        simp only [h1, h2, if_false] at hab hba
        have hx : x = y := Char.ext (UInt32.ext h)
        rw [hx, ih ys hab hba]
      · have h2 : ¬ x.toNat < y.toNat := by omega
        simp [h, h2] at hab

theorem string_eq_of_data_eq {a b : String} (h : a.data = b.data) : a = b := by
  cases a; cases b; exact congrArg String.mk h

theorem lexLeB_cons (x y : Char) (xs ys : List Char) :
    lexLeB (x :: xs) (y :: ys) = true ↔
      (x.toNat < y.toNat ∨ (x.toNat = y.toNat ∧ lexLeB xs ys = true)) := by
  simp only [lexLeB]
  rcases Nat.lt_trichotomy x.toNat y.toNat with h | h | h
  · simp only [if_pos h]
    constructor
    · intro _; exact Or.inl h
    · intro _; trivial
  · have h1 : ¬ x.toNat < y.toNat := by omega
    have h2 : ¬ y.toNat < x.toNat := by omega
    simp only [if_neg h1, if_neg h2]
    constructor
    · intro hr; exact Or.inr ⟨h, hr⟩
    · intro hr
      rcases hr with hr | ⟨_, hr⟩
      · omega
      · exact hr
  · have h1 : ¬ x.toNat < y.toNat := by omega
    have h2 : y.toNat < x.toNat := h
    simp only [if_neg h1, if_pos h2]
    constructor
    · intro hc; exact absurd hc (by simp)
    · intro hr
      rcases hr with hr | ⟨hr, _⟩ <;> omega

theorem lexLeB_trans : ∀ a b c : List Char,
    lexLeB a b = true → lexLeB b c = true → lexLeB a c = true := by
  intro a
  induction a with
  | nil => intro b c _ _; rfl
  | cons x xs ih =>
    intro b c hab hbc
    cases b with
    | nil => simp [lexLeB] at hab
    | cons y ys =>
      cases c with
      | nil => simp [lexLeB] at hbc
      | cons z zs =>
        rw [lexLeB_cons] at hab hbc ⊢
        rcases hab with h1 | ⟨h1, h1'⟩ <;> rcases hbc with h2 | ⟨h2, h2'⟩
        · left; omega
        · left; omega
        · left; omega
        · right; exact ⟨by omega, ih ys zs h1' h2'⟩

theorem insertKeySorted_comm (x y : String) (l : List String) :
    insertKeySorted x (insertKeySorted y l) = insertKeySorted y (insertKeySorted x l) := by
  induction l with
  | nil =>
    by_cases hxy : lexLeB x.data y.data
    · by_cases hyx : lexLeB y.data x.data
      · have : x = y := string_eq_of_data_eq (lexLeB_antisymm _ _ hxy hyx)
        rw [this]
      · simp [insertKeySorted, hxy, hyx]
    · have hyx : lexLeB y.data x.data = true := by
        rcases lexLeB_total x.data y.data with h | h
        · exact absurd h hxy
        · exact h
      simp [insertKeySorted, hxy, hyx]
  | cons z zs ih =>
    by_cases hxz : lexLeB x.data z.data <;> by_cases hyz : lexLeB y.data z.data
    · by_cases hxy : lexLeB x.data y.data
      · by_cases hyx : lexLeB y.data x.data
        · have : x = y := string_eq_of_data_eq (lexLeB_antisymm _ _ hxy hyx)
          rw [this]
        · simp [insertKeySorted, hxz, hyz, hxy, hyx]
      · have hyx : lexLeB y.data x.data = true := by
          rcases lexLeB_total x.data y.data with h | h
          · exact absurd h hxy
          · exact h
        simp [insertKeySorted, hxz, hyz, hxy, hyx]
    · have hyx : ¬ lexLeB y.data x.data = true := fun hc =>
        hyz (lexLeB_trans _ _ _ hc hxz)
      simp [insertKeySorted, hxz, hyz, hyx]
    · have hxy : ¬ lexLeB x.data y.data = true := fun hc =>
        hxz (lexLeB_trans _ _ _ hc hyz)
      simp [insertKeySorted, hxz, hyz, hxy]
    · simp only [insertKeySorted, if_neg hxz, if_neg hyz]
      rw [ih]

instance : LeftCommutative insertKeySorted := ⟨insertKeySorted_comm⟩

theorem sortKeys_eq_of_perm {l1 l2 : List String} (h : l1.Perm l2) :
    sortKeys l1 = sortKeys l2 :=
  h.foldr_eq []

theorem jsGet_eq_of_perm {l1 l2 : List (String × Json)} (h : l1.Perm l2)
    (nd : (l1.map Prod.fst).Nodup) (k : String) : jsGet k l1 = jsGet k l2 := by
  induction h with
  | nil => rfl
  | cons a _ ih =>
    simp only [List.map_cons, List.nodup_cons] at nd
    simp only [jsGet]
    rw [ih nd.2]
  | swap a b t =>
    simp only [List.map_cons, List.nodup_cons, List.mem_cons] at nd
    have hne : b.1 ≠ a.1 := fun hc => nd.1 (Or.inl hc)
    simp only [jsGet]
    by_cases h1 : b.1 = k <;> by_cases h2 : a.1 = k <;> simp [h1, h2]
    exact absurd (h1.trans h2.symm) hne
  | trans h1 _ ih1 ih2 =>
    rw [ih1 nd, ih2 ((h1.map Prod.fst).nodup_iff.mp nd)]

/-- Claim C2, counterexample: the key sort in `verifySignature` is applied
to the top-level keys only, so reordering the keys of the nested `context`
object changes the canonical payload.  This refutes the claim that the
canonical payload is unchanged under reorderings at any nesting depth. -/
theorem C2_counterexample :
    canonicalPayload
        [("context", Json.obj [("flow_state", Json.str "RISK_ON"), ("vix", Json.num 18)]),
         ("id", Json.str "prop-1"), ("signature", Json.str "ab")]
      ≠ canonicalPayload
        [("context", Json.obj [("vix", Json.num 18), ("flow_state", Json.str "RISK_ON")]),
         ("id", Json.str "prop-1"), ("signature", Json.str "ab")] := by
  decide

/-- Claim C2, amended: signature verification removes the `signature`
field and sorts the top-level keys only; consequently the canonical
payload — and hence the HMAC input — is unchanged under any reordering of
the top-level keys (keys of a JavaScript object are pairwise distinct),
and unchanged by the removed `signature` field. -/
theorem C2_canonical_toplevel_stable (p1 p2 : List (String × Json)) (v : Json)
    (hperm : p1.Perm p2) (hnd : (p1.map Prod.fst).Nodup) :
    canonicalPayload p1 = canonicalPayload p2 ∧
    canonicalPayload (("signature", v) :: p1) = canonicalPayload p1 := by
  constructor
  · have hfp : (p1.filter (fun kv => kv.1 ≠ "signature")).Perm
        (p2.filter (fun kv => kv.1 ≠ "signature")) := hperm.filter _
    have hnd1 : ((p1.filter (fun kv => kv.1 ≠ "signature")).map Prod.fst).Nodup := by
      refine List.Nodup.sublist ?_ hnd
      exact ((List.filter_sublist _)).map _
    have hkeys : sortKeys ((p1.filter (fun kv => kv.1 ≠ "signature")).map Prod.fst)
        = sortKeys ((p2.filter (fun kv => kv.1 ≠ "signature")).map Prod.fst) :=
      sortKeys_eq_of_perm (hfp.map _)
    simp only [canonicalPayload]
    rw [hkeys]
    apply congrArg stringifyJson
    apply congrArg Json.obj
    apply List.filterMap_congr
    intro k _
    rw [jsGet_eq_of_perm hfp hnd1 k]
  · have hfil : (("signature", v) :: p1).filter (fun kv => kv.1 ≠ "signature")
        = p1.filter (fun kv => kv.1 ≠ "signature") := by simp
    simp only [canonicalPayload, hfil]

/-- Claim C2, witness: the amended theorem applied to a two-field object
with its top-level keys swapped. -/
theorem C2_witness :
    List.Perm [("b", Json.num 2), ("a", Json.num 1)] [("a", Json.num 1), ("b", Json.num 2)]
    ∧ ([("b", Json.num 2), ("a", Json.num 1)].map Prod.fst).Nodup
    ∧ (canonicalPayload [("b", Json.num 2), ("a", Json.num 1)]
        = canonicalPayload [("a", Json.num 1), ("b", Json.num 2)]
      ∧ canonicalPayload (("signature", Json.str "s") :: [("b", Json.num 2), ("a", Json.num 1)])
        = canonicalPayload [("b", Json.num 2), ("a", Json.num 1)]) :=
  ⟨List.Perm.swap ("a", Json.num 1) ("b", Json.num 2) [],
   by decide,
   C2_canonical_toplevel_stable _ _ (Json.str "s")
     (List.Perm.swap ("a", Json.num 1) ("b", Json.num 2) []) (by decide)⟩

/-- Claim C9: with `forceEodCloseEt: null` in the Constitution, every
invocation of `enforceEOD` throws a TypeError (calling `.split(':')` on
`null`) instead of completing as a disabled no-op; the error does mean the
system is never locked by it, but the claim that every invocation
completes without error is contradicted by the code. -/
theorem C9_eod_null_throws :
    CONSTITUTION.forceEodCloseEt = none ∧
    ∀ (etHour etMinute : Nat) (st : GateState),
      enforceEOD CONSTITUTION etHour etMinute st
        = Except.error EodError.typeErrorNullSplit := by
  exact ⟨rfl, fun _ _ _ => rfl⟩

/-- Claim C10, counterexample: a POST to `/v1/admin/lock` whose body fails
to parse as JSON answers 500 and does not lock the system, refuting the
claim that any POST to `/v1/admin/lock` locks it. -/
theorem C10_counterexample :
    workerFetch CONSTITUTION sampleEnv sampleExecOk
        { path := "/v1/admin/lock", method := "POST", headers := emptyHeaders
        , proposalBody := none, lockBody := none, calendarBody := none }
        sampleState
      = ({ status := 500, body := WorkerBody.adminError "invalid JSON" }, sampleState, [])
    ∧ sampleState.locked = false := by
  exact ⟨by decide, by decide⟩

/-- Claim C10, amended: the admin routes perform no authentication.  For
every headers value and every body: POST `/v1/admin/unlock` transitions
the system to NORMAL and answers `UNLOCKED`; POST `/v1/admin/lock` with
any body that parses as JSON locks the system; POST `/v1/admin/liquidate`
locks the system and requests cancellation of every pending order whose
symbol has a nonzero position (a lock request whose body fails to parse
answers 500 without locking, per the counterexample). -/
theorem C10_admin_no_auth (h : ReqHeaders) (pb : Option TradeProposal)
    (lb : Option (Option String)) (cb : Option (List String)) (ro : Option String)
    (env : EvalEnv) (exec : ExecEnv) (st : GateState) :
    (workerFetch CONSTITUTION env exec
        { path := "/v1/admin/unlock", method := "POST", headers := h
        , proposalBody := pb, lockBody := lb, calendarBody := cb } st
      = ({ status := 200, body := WorkerBody.unlocked }, unlockSystem st, [])
      ∧ (unlockSystem st).locked = false ∧ (unlockSystem st).lockReason = none)
    ∧ (workerFetch CONSTITUTION env exec
        { path := "/v1/admin/lock", method := "POST", headers := h
        , proposalBody := pb, lockBody := some ro, calendarBody := cb } st
      = ({ status := 200
         , body := WorkerBody.locked (some (LockCause.manual (ro.getD "Manual lock"))) },
         lockSystem (LockCause.manual (ro.getD "Manual lock")) st, [])
      ∧ (lockSystem (LockCause.manual (ro.getD "Manual lock")) st).locked = true)
    ∧ (workerFetch CONSTITUTION env exec
        { path := "/v1/admin/liquidate", method := "POST", headers := h
        , proposalBody := pb, lockBody := lb, calendarBody := cb } st
      = ({ status := 200
         , body := WorkerBody.liquidated
             (((st.positions.filter (fun r => r.quantity ≠ 0)).map (fun r => r.symbol)).dedup) },
         lockSystem LockCause.emergencyLiquidation st,
         (st.orders.filter (fun o =>
             o.symbol ∈ ((st.positions.filter (fun r => r.quantity ≠ 0)).map
               (fun r => r.symbol)).dedup
             ∧ o.status = "pending")).map (fun o => o.id))) := by
  refine ⟨⟨rfl, rfl, rfl⟩, ⟨rfl, rfl⟩, rfl⟩

theorem applySync_preserves (sync : SyncEnv) (st : GateState) :
    (applySync sync st).locked = st.locked
    ∧ (applySync sync st).lockReason = st.lockReason
    ∧ (applySync sync st).restrictedDates = st.restrictedDates
    ∧ (applySync sync st).proposals = st.proposals
    ∧ (applySync sync st).orders = st.orders
    ∧ (applySync sync st).positionMetadata = st.positionMetadata := by
  unfold applySync
  cases sync.balances with
  | none => exact ⟨rfl, rfl, rfl, rfl, rfl, rfl⟩
  | some eq =>
    cases sync.positions with
    | none => exact ⟨rfl, rfl, rfl, rfl, rfl, rfl⟩
    | some ps => exact ⟨rfl, rfl, rfl, rfl, rfl, rfl⟩

theorem evaluateProposal_snd_cases (c : RiskConfig) (env : EvalEnv) (st0 : GateState)
    (p : TradeProposal) :
    (evaluateProposal c env st0 p).2 = applySync env.sync st0
    ∨ (evaluateProposal c env st0 p).2
        = lockSystem (LockCause.dailyLossLimit
            (getDailyLossPercent env.sync (applySync env.sync st0)))
            (applySync env.sync st0) := by
  unfold evaluateProposal
  cases h : preDailyLossCheck c env (applySync env.sync st0) p with
  | some r => left; rfl
  | none =>
    by_cases hdl : getDailyLossPercent env.sync (applySync env.sync st0)
        ≥ c.maxDailyLossPercent
    · rw [if_pos hdl]; right; rfl
    · rw [if_neg hdl]
      cases postDailyLossCheck c (applySync env.sync st0) p with
      | some r => left; rfl
      | none => left; rfl

theorem evaluateProposal_snd_tables (c : RiskConfig) (env : EvalEnv) (st0 : GateState)
    (p : TradeProposal) :
    (evaluateProposal c env st0 p).2.proposals = st0.proposals
    ∧ (evaluateProposal c env st0 p).2.orders = st0.orders
    ∧ (evaluateProposal c env st0 p).2.positionMetadata = st0.positionMetadata := by
  have hp := applySync_preserves env.sync st0
  rcases evaluateProposal_snd_cases c env st0 p with h | h <;> rw [h]
  · exact ⟨hp.2.2.2.1, hp.2.2.2.2.1, hp.2.2.2.2.2⟩
  · exact ⟨hp.2.2.2.1, hp.2.2.2.2.1, hp.2.2.2.2.2⟩

/-- Claim C3: for every proposal, OPEN or CLOSE, whose evaluation reaches
the daily-loss check with start-of-day equity set and nonzero: when
`(start_of_day_equity − current_equity) / start_of_day_equity` is at least
`maxDailyLossPercent`, the evaluation locks the system (persisting the
lock) and returns REJECTED with a reason carrying the loss percentage. -/
theorem C3_daily_loss_locks (c : RiskConfig) (env : EvalEnv) (st0 : GateState)
    (p : TradeProposal) (s : ℚ)
    (hpre : preDailyLossCheck c env (applySync env.sync st0) p = none)
    (hsod : (applySync env.sync st0).startOfDayEquity = some s)
    (hs : s ≠ 0)
    (hloss : (s - getCurrentEquity env.sync (applySync env.sync st0)) / s
              ≥ c.maxDailyLossPercent) :
    evaluateProposal c env st0 p
      = ({ status := ProposalStatus.REJECTED
         , rejectionReason := some (Reason.dailyLossLimitExceeded
             ((s - getCurrentEquity env.sync (applySync env.sync st0)) / s)
             c.maxDailyLossPercent) },
         lockSystem (LockCause.dailyLossLimit
             ((s - getCurrentEquity env.sync (applySync env.sync st0)) / s))
           (applySync env.sync st0)) := by
  have hdl : getDailyLossPercent env.sync (applySync env.sync st0)
      = (s - getCurrentEquity env.sync (applySync env.sync st0)) / s := by
    unfold getDailyLossPercent
    rw [hsod]
    simp [hs]
  simp only [evaluateProposal, hpre, hdl, if_pos hloss]

/-- Claim C3, witness: start-of-day equity 100000, broker equity 90000, a
10% loss against the 5% limit: the evaluation rejects and locks. -/
theorem C3_witness :
    preDailyLossCheck CONSTITUTION lossEnv (applySync lossEnv.sync lossState)
        sampleOpenProposal = none
    ∧ (applySync lossEnv.sync lossState).startOfDayEquity = some 100000
    ∧ (100000 : ℚ) ≠ 0
    ∧ ((100000 : ℚ) - getCurrentEquity lossEnv.sync (applySync lossEnv.sync lossState))
        / 100000 ≥ CONSTITUTION.maxDailyLossPercent
    ∧ (evaluateProposal CONSTITUTION lossEnv lossState sampleOpenProposal).1.status
        = ProposalStatus.REJECTED
    ∧ (evaluateProposal CONSTITUTION lossEnv lossState sampleOpenProposal).2.locked = true := by
  have h1 : preDailyLossCheck CONSTITUTION lossEnv (applySync lossEnv.sync lossState)
      sampleOpenProposal = none := by decide
  have h2 : (applySync lossEnv.sync lossState).startOfDayEquity = some 100000 := by decide
  have h3 : (100000 : ℚ) ≠ 0 := by norm_num
  have h4 : ((100000 : ℚ) - getCurrentEquity lossEnv.sync (applySync lossEnv.sync lossState))
      / 100000 ≥ CONSTITUTION.maxDailyLossPercent := by
    show ((100000 : ℚ) - 90000) / 100000 ≥ mkRat 5 100
    rw [Rat.mkRat_eq_div]
    norm_num
  refine ⟨h1, h2, h3, h4, ?_, ?_⟩
  all_goals rw [C3_daily_loss_locks CONSTITUTION lossEnv lossState sampleOpenProposal 100000
    h1 h2 h3 h4]
  rfl

theorem eval_reject_at_structure (c : RiskConfig) (env : EvalEnv) (st0 : GateState)
    (p : TradeProposal) (r : Reason)
    (hpre : preStructureCheck c env (applySync env.sync st0) p = none)
    (hs : structureCheck p = some r) :
    (evaluateProposal c env st0 p).1
      = { status := ProposalStatus.REJECTED, rejectionReason := some r } := by
  have hpd : preDailyLossCheck c env (applySync env.sync st0) p = some r := by
    simp only [preDailyLossCheck, hpre, hs]
  simp only [evaluateProposal, hpd]

/-- Claim C5: for every OPEN proposal that reaches structure validation, a
CREDIT_SPREAD is rejected (with the structure reason) unless it has
exactly 2 legs, an IRON_CONDOR and an IRON_BUTTERFLY unless exactly 4, and
a RATIO_SPREAD unless it has exactly 2 legs with unequal quantities; CLOSE
proposals are never rejected on structure. -/
theorem C5_structure_validation (c : RiskConfig) (env : EvalEnv) (st0 : GateState)
    (p : TradeProposal)
    (hpre : preStructureCheck c env (applySync env.sync st0) p = none) :
    (p.side = ProposalSide.CLOSE → structureCheck p = none)
    ∧ (p.side = ProposalSide.OPEN →
        ((p.strategy = "CREDIT_SPREAD" →
            (p.legs.length ≠ 2 →
              (evaluateProposal c env st0 p).1
                = { status := ProposalStatus.REJECTED
                  , rejectionReason := some (Reason.creditSpreadLegCount p.legs.length) })
            ∧ (p.legs.length = 2 → structureCheck p = none))
        ∧ (p.strategy = "IRON_CONDOR" →
            (p.legs.length ≠ 4 →
              (evaluateProposal c env st0 p).1
                = { status := ProposalStatus.REJECTED
                  , rejectionReason := some (Reason.ironCondorLegCount p.legs.length) })
            ∧ (p.legs.length = 4 → structureCheck p = none))
        ∧ (p.strategy = "IRON_BUTTERFLY" →
            (p.legs.length ≠ 4 →
              (evaluateProposal c env st0 p).1
                = { status := ProposalStatus.REJECTED
                  , rejectionReason := some (Reason.ironButterflyLegCount p.legs.length) })
            ∧ (p.legs.length = 4 → structureCheck p = none))
        ∧ (p.strategy = "RATIO_SPREAD" →
            (p.legs.length ≠ 2 →
              (evaluateProposal c env st0 p).1
                = { status := ProposalStatus.REJECTED
                  , rejectionReason := some (Reason.ratioSpreadLegCount p.legs.length) })
            ∧ ∀ l0 l1, p.legs = [l0, l1] →
                ((l0.quantity = l1.quantity →
                    (evaluateProposal c env st0 p).1
                      = { status := ProposalStatus.REJECTED
                        , rejectionReason := some Reason.ratioSpreadEqualQuantities })
                  ∧ (l0.quantity ≠ l1.quantity → structureCheck p = none))))) := by
  constructor
  · intro hside
    simp [structureCheck, hside]
  · intro hside
    refine ⟨?_, ?_, ?_, ?_⟩
    · intro hstrat
      constructor
      · intro hlen
        refine eval_reject_at_structure c env st0 p _ hpre ?_
        simp +decide [structureCheck, hside, hstrat, hlen]
      · intro hlen
        simp +decide [structureCheck, hside, hstrat, hlen]
    · intro hstrat
      constructor
      · intro hlen
        refine eval_reject_at_structure c env st0 p _ hpre ?_
        simp +decide [structureCheck, hside, hstrat, hlen]
      · intro hlen
        simp +decide [structureCheck, hside, hstrat, hlen]
    · intro hstrat
      constructor
      · intro hlen
        refine eval_reject_at_structure c env st0 p _ hpre ?_
        simp +decide [structureCheck, hside, hstrat, hlen]
      · intro hlen
        simp +decide [structureCheck, hside, hstrat, hlen]
    · intro hstrat
      constructor
      · intro hlen
        refine eval_reject_at_structure c env st0 p _ hpre ?_
        rcases hl : p.legs with _ | ⟨l0, _ | ⟨l1, _ | ⟨l2, rest⟩⟩⟩
        · simp +decide [structureCheck, hside, hstrat, hl]
        · simp +decide [structureCheck, hside, hstrat, hl]
        · exact absurd (by rw [hl]; rfl) hlen
        · simp +decide [structureCheck, hside, hstrat, hl]
      · intro l0 l1 hl
        constructor
        · intro hq
          refine eval_reject_at_structure c env st0 p _ hpre ?_
          simp +decide [structureCheck, hside, hstrat, hl, hq]
        · intro hq
          simp +decide [structureCheck, hside, hstrat, hl, hq]

/-- Claim C5, witness: the two-leg CREDIT_SPREAD passes structure
validation and the three-leg variant is rejected with the leg-count
reason. -/
theorem C5_witness :
    (preStructureCheck CONSTITUTION sampleEnv (applySync sampleEnv.sync sampleState)
        sampleOpenProposal = none
      ∧ structureCheck sampleOpenProposal = none)
    ∧ (preStructureCheck CONSTITUTION sampleEnv (applySync sampleEnv.sync sampleState)
        threeLegProposal = none
      ∧ (evaluateProposal CONSTITUTION sampleEnv sampleState threeLegProposal).1
          = { status := ProposalStatus.REJECTED
            , rejectionReason := some (Reason.creditSpreadLegCount 3) }) := by
  refine ⟨⟨by decide, ?_⟩, ⟨by decide, ?_⟩⟩
  · exact (((C5_structure_validation CONSTITUTION sampleEnv sampleState sampleOpenProposal
      (by decide)).2 rfl).1 rfl).2 rfl
  · exact (((C5_structure_validation CONSTITUTION sampleEnv sampleState threeLegProposal
      (by decide)).2 rfl).1 rfl).1 (by decide)

/-- Claim C6: for every proposal that reaches the context check, an OPEN
proposal is rejected if and only if VIX is absent, VIX exceeds 28 (so
exactly 28 is accepted), or the flow state is the literal `UNKNOWN`; a
CLOSE proposal is approved (the context check is skipped and it is the
last check). -/
theorem C6_context_check (c : RiskConfig) (env : EvalEnv) (st0 : GateState)
    (p : TradeProposal)
    (hpre : preDailyLossCheck c env (applySync env.sync st0) p = none)
    (hdl : ¬ getDailyLossPercent env.sync (applySync env.sync st0) ≥ c.maxDailyLossPercent)
    (hmax : maxPositionsCheck c (applySync env.sync st0) p = none)
    (hcorr : correlationCheck c (applySync env.sync st0) p = none)
    (hconc : concentrationCheck c (applySync env.sync st0) p = none) :
    (p.side = ProposalSide.CLOSE →
      (evaluateProposal c env st0 p).1
        = { status := ProposalStatus.APPROVED, rejectionReason := none })
    ∧ (p.side = ProposalSide.OPEN →
        ((evaluateProposal c env st0 p).1.status = ProposalStatus.REJECTED ↔
          (p.context.vix = none
            ∨ (∃ v, p.context.vix = some v ∧ v > 28)
            ∨ p.context.flow_state = some "UNKNOWN"))) := by
  have hred : (evaluateProposal c env st0 p).1
      = (match contextCheck p with
         | some r => { status := ProposalStatus.REJECTED, rejectionReason := some r }
         | none => { status := ProposalStatus.APPROVED, rejectionReason := none }) := by
    simp only [evaluateProposal, hpre, if_neg hdl, postDailyLossCheck, hmax, hcorr, hconc]
    cases contextCheck p <;> rfl
  constructor
  · intro hside
    have hctx : contextCheck p = none := by simp [contextCheck, hside]
    rw [hred, hctx]
  · intro hside
    rw [hred]
    cases hvix : p.context.vix with
    | none =>
      have hctx : contextCheck p = some Reason.vixNotAvailable := by
        simp [contextCheck, hside, hvix]
      rw [hctx]
      exact iff_of_true rfl (Or.inl rfl)
    | some v =>
      by_cases hv : v > 28
      · have hctx : contextCheck p = some (Reason.vixTooHigh v) := by
          simp [contextCheck, hside, hvix, hv]
        rw [hctx]
        exact iff_of_true rfl (Or.inr (Or.inl ⟨v, rfl, hv⟩))
      · by_cases hf : p.context.flow_state = some "UNKNOWN"
        · have hctx : contextCheck p = some Reason.flowStateUnknown := by
            simp [contextCheck, hside, hvix, hv, hf]
          rw [hctx]
          exact iff_of_true rfl (Or.inr (Or.inr hf))
        · have hctx : contextCheck p = none := by
            simp [contextCheck, hside, hvix, hv, hf]
          rw [hctx]
          refine iff_of_false (by decide) ?_
          intro hc
          rcases hc with hc | ⟨w, hw, hgt⟩ | hc
          · exact Option.noConfusion hc
          · cases hw
            exact absurd hgt hv
          · exact absurd hc hf

/-- Claim C6, witness: the context-check theorem applied at VIX exactly
28 (accepted), together with the decided evaluations showing VIX 28 is
approved and VIX 28.01 is rejected with the too-high reason. -/
theorem C6_witness :
    preDailyLossCheck CONSTITUTION sampleEnv (applySync sampleEnv.sync sampleState)
        vix28Proposal = none
    ∧ ¬ getDailyLossPercent sampleEnv.sync (applySync sampleEnv.sync sampleState)
        ≥ CONSTITUTION.maxDailyLossPercent
    ∧ maxPositionsCheck CONSTITUTION (applySync sampleEnv.sync sampleState)
        vix28Proposal = none
    ∧ correlationCheck CONSTITUTION (applySync sampleEnv.sync sampleState)
        vix28Proposal = none
    ∧ concentrationCheck CONSTITUTION (applySync sampleEnv.sync sampleState)
        vix28Proposal = none
    ∧ ((evaluateProposal CONSTITUTION sampleEnv sampleState vix28Proposal).1.status
          = ProposalStatus.REJECTED ↔
        (vix28Proposal.context.vix = none
          ∨ (∃ v, vix28Proposal.context.vix = some v ∧ v > 28)
          ∨ vix28Proposal.context.flow_state = some "UNKNOWN"))
    ∧ (evaluateProposal CONSTITUTION sampleEnv sampleState vix28Proposal).1.status
        = ProposalStatus.APPROVED
    ∧ (evaluateProposal CONSTITUTION sampleEnv sampleState vix2801Proposal).1
        = { status := ProposalStatus.REJECTED
          , rejectionReason := some (Reason.vixTooHigh (mkRat 2801 100)) } := by
  refine ⟨by decide, by decide, by decide, by decide, by decide, ?_, by decide, by decide⟩
  exact (C6_context_check CONSTITUTION sampleEnv sampleState vix28Proposal
    (by decide) (by decide) (by decide) (by decide) (by decide)).2 rfl

/-- Claim C1, counterexample: a proposal POSTed to `/v1/proposal` without
any signature header is answered 401 with the durable state unchanged: no
row with the proposal's id is appended to the proposals ledger, refuting
the claim for requests whose signature header is absent. -/
theorem C1_counterexample :
    workerFetch CONSTITUTION sampleEnv sampleExecOk
        { path := "/v1/proposal", method := "POST", headers := emptyHeaders
        , proposalBody := some sampleOpenProposal, lockBody := none, calendarBody := none }
        sampleState
      = ({ status := 401, body := WorkerBody.proposal RespBody.missingSignature },
         sampleState, [])
    ∧ (sampleState.proposals.filter (fun r => r.id = sampleOpenProposal.id)) = [] := by
  exact ⟨by decide, by decide⟩

/-- Claim C1, amended: for every request carrying a signature header whose
body parses as a proposal, exactly one row with the proposal's id — and
the evaluation's status, approved or rejected alike — is appended to the
proposals ledger, and the append is part of the same state transition that
produces the HTTP response.  (When the signature header is absent, or the
body fails to parse, or evaluation itself throws, the Gate answers 401 or
400 without touching the ledger, per the counterexample.) -/
theorem C1_ledger_append (c : RiskConfig) (env : EvalEnv) (exec : ExecEnv)
    (req : GateRequest) (st0 : GateState) (p : TradeProposal) (sig : String)
    (hsig : extractSignatureFromHeaders req.headers = some sig)
    (hbody : req.body = some p) :
    (processProposal c env exec req st0).2.proposals
      = st0.proposals
        ++ [{ id := p.id, timestamp := Int.fdiv p.timestamp 1000, symbol := p.symbol
            , strategy := p.strategy, side := p.side, quantity := p.quantity
            , status := (evaluateProposal c env st0 p).1.status
            , rejectionReason := (evaluateProposal c env st0 p).1.rejectionReason }] := by
  have htab := evaluateProposal_snd_tables c env st0 p
  simp only [processProposal, hsig, hbody]
  split
  · simp [htab.1]
  · split
    · split
      · simp [htab.1]
      · split
        · simp [savePositionMetadata, htab.1]
        · split
          · simp [removePositionMetadata, htab.1]
          · simp [htab.1]
    · simp [htab.1]

/-- Claim C1, witness: the amended theorem at the sample approved run. -/
theorem C1_witness :
    extractSignatureFromHeaders sampleHeaders = some "ab3f"
    ∧ (processProposal CONSTITUTION sampleEnv sampleExecOk
        { headers := sampleHeaders, body := some sampleOpenProposal } sampleState).2.proposals
      = sampleState.proposals
        ++ [{ id := sampleOpenProposal.id
            , timestamp := Int.fdiv sampleOpenProposal.timestamp 1000
            , symbol := sampleOpenProposal.symbol
            , strategy := sampleOpenProposal.strategy
            , side := sampleOpenProposal.side
            , quantity := sampleOpenProposal.quantity
            , status := (evaluateProposal CONSTITUTION sampleEnv sampleState
                sampleOpenProposal).1.status
            , rejectionReason := (evaluateProposal CONSTITUTION sampleEnv sampleState
                sampleOpenProposal).1.rejectionReason }] := by
  refine ⟨by decide, ?_⟩
  exact C1_ledger_append CONSTITUTION sampleEnv sampleExecOk
    { headers := sampleHeaders, body := some sampleOpenProposal }
    sampleState sampleOpenProposal "ab3f" (by decide) rfl

theorem eval_locked_state (c : RiskConfig) (env : EvalEnv) (st0 : GateState)
    (p : TradeProposal) (h : st0.locked = true) :
    (evaluateProposal c env st0 p).1.status = ProposalStatus.REJECTED
    ∧ (evaluateProposal c env st0 p).2.locked = true
    ∧ (env.sigValid = true →
        (evaluateProposal c env st0 p).1.rejectionReason
          = some (Reason.systemIsLocked st0.lockReason)) := by
  have hpres := applySync_preserves env.sync st0
  have hl : (applySync env.sync st0).locked = true := by rw [hpres.1]; exact h
  have hlr : (applySync env.sync st0).lockReason = st0.lockReason := hpres.2.1
  by_cases hsv : env.sigValid = true
  · have h1 : sigCheck env = none := by simp [sigCheck, hsv]
    have h2 : lockCheck (applySync env.sync st0) = some (Reason.systemIsLocked st0.lockReason) := by
      simp [lockCheck, hl, hlr]
    have hpd : preDailyLossCheck c env (applySync env.sync st0) p
        = some (Reason.systemIsLocked st0.lockReason) := by
      simp only [preDailyLossCheck, preStructureCheck, h1, h2]
    simp only [evaluateProposal, hpd]
    exact ⟨trivial, hl, fun _ => trivial⟩
  · have h1 : sigCheck env = some Reason.invalidSignature := by simp [sigCheck, hsv]
    have hpd : preDailyLossCheck c env (applySync env.sync st0) p
        = some Reason.invalidSignature := by
      simp only [preDailyLossCheck, preStructureCheck, h1]
    simp only [evaluateProposal, hpd]
    exact ⟨trivial, hl, fun hc => absurd hc hsv⟩

theorem processProposal_locked (c : RiskConfig) (env : EvalEnv) (exec : ExecEnv)
    (req : GateRequest) (st : GateState) (h : st.locked = true) :
    (processProposal c env exec req st).2.locked = true
    ∧ ((processProposal c env exec req st).2.proposals = st.proposals
       ∨ ∃ row, (processProposal c env exec req st).2.proposals = st.proposals ++ [row]
           ∧ row.status = ProposalStatus.REJECTED) := by
  unfold processProposal
  cases hx : extractSignatureFromHeaders req.headers with
  | none => exact ⟨h, Or.inl rfl⟩
  | some sig =>
    cases hb : req.body with
    | none => exact ⟨h, Or.inl rfl⟩
    | some p =>
      have he := eval_locked_state c env st p h
      have htab := evaluateProposal_snd_tables c env st p
      simp only [he.1]
      constructor
      · exact he.2.1
      · refine Or.inr ⟨⟨p.id, Int.fdiv p.timestamp 1000, p.symbol, p.strategy, p.side,
          p.quantity, ProposalStatus.REJECTED,
          (evaluateProposal c env st p).1.rejectionReason⟩, ?_, rfl⟩
        rw [htab.1]

theorem processTrace_locked (c : RiskConfig)
    (steps : List (EvalEnv × ExecEnv × GateRequest)) :
    ∀ st : GateState, st.locked = true →
      (processTrace c steps st).locked = true
      ∧ ∀ row ∈ (processTrace c steps st).proposals,
          row ∈ st.proposals ∨ row.status = ProposalStatus.REJECTED := by
  induction steps with
  | nil => exact fun st h => ⟨h, fun row hr => Or.inl hr⟩
  | cons s rest ih =>
    intro st h
    have hp := processProposal_locked c s.1 s.2.1 s.2.2 st h
    have ihh := ih _ hp.1
    refine ⟨ihh.1, fun row hr => ?_⟩
    rcases ihh.2 row hr with hmem | hrej
    · rcases hp.2 with heq | ⟨r2, heq, hst⟩
      · rw [heq] at hmem
        exact Or.inl hmem
      · rw [heq] at hmem
        rcases List.mem_append.mp hmem with h1 | h2
        · exact Or.inl h1
        · have hr2 : row = r2 := by simpa using h2
          exact Or.inr (hr2 ▸ hst)
    · exact Or.inr hrej

/-- Claim C4, counterexample: while the system is LOCKED, a proposal whose
signature does not verify is rejected with the `Invalid signature` reason,
not with a `System is locked` reason — the signature check precedes the
lock check — refuting the claim that every proposal evaluated under LOCKED
is rejected with a 'System is locked' reason. -/
theorem C4_counterexample :
    sampleLockedState.locked = true
    ∧ (evaluateProposal CONSTITUTION badSigEnv sampleLockedState sampleOpenProposal).1.status
        = ProposalStatus.REJECTED
    ∧ (evaluateProposal CONSTITUTION badSigEnv sampleLockedState
        sampleOpenProposal).1.rejectionReason = some Reason.invalidSignature
    ∧ some Reason.invalidSignature
        ≠ some (Reason.systemIsLocked sampleLockedState.lockReason) := by
  exact ⟨by decide, by decide, by decide, by decide⟩

/-- Claim C4, amended: while the system is LOCKED, every evaluated
proposal is rejected (never approved), proposals with a valid signature
are rejected with the 'System is locked' reason (an invalid signature
yields the 'Invalid signature' reason instead, per the counterexample),
the lock persists, and across any sequence of subsequent proposal requests
no row with status APPROVED is appended to the proposals ledger. -/
theorem C4_locked_rejects_all (c : RiskConfig) (st0 : GateState)
    (hlock : st0.locked = true) :
    (∀ (env : EvalEnv) (p : TradeProposal),
      (evaluateProposal c env st0 p).1.status = ProposalStatus.REJECTED
      ∧ (evaluateProposal c env st0 p).2.locked = true
      ∧ (env.sigValid = true →
          (evaluateProposal c env st0 p).1.rejectionReason
            = some (Reason.systemIsLocked st0.lockReason)))
    ∧ (∀ steps : List (EvalEnv × ExecEnv × GateRequest),
        (processTrace c steps st0).locked = true
        ∧ ∀ row ∈ (processTrace c steps st0).proposals,
            row ∈ st0.proposals ∨ row.status = ProposalStatus.REJECTED) :=
  ⟨fun env p => eval_locked_state c env st0 p hlock,
   fun steps => processTrace_locked c steps st0 hlock⟩

/-- Claim C4, witness: the amended theorem at a concrete locked state, a
valid-signature proposal and a one-request trace. -/
theorem C4_witness :
    sampleLockedState.locked = true
    ∧ (evaluateProposal CONSTITUTION sampleEnv sampleLockedState
        sampleOpenProposal).1.status = ProposalStatus.REJECTED
    ∧ (evaluateProposal CONSTITUTION sampleEnv sampleLockedState
        sampleOpenProposal).1.rejectionReason
        = some (Reason.systemIsLocked sampleLockedState.lockReason)
    ∧ (processTrace CONSTITUTION
        [(sampleEnv, sampleExecOk,
          { headers := sampleHeaders, body := some sampleOpenProposal })]
        sampleLockedState).locked = true := by
  have H := C4_locked_rejects_all CONSTITUTION sampleLockedState (by decide)
  exact ⟨by decide, (H.1 sampleEnv sampleOpenProposal).1,
    (H.1 sampleEnv sampleOpenProposal).2.2 rfl,
    (H.2 [(sampleEnv, sampleExecOk,
      { headers := sampleHeaders, body := some sampleOpenProposal })]).1⟩

/-- Claim C7: whenever `processProposal` answers 200 (an approved proposal
whose order was submitted), the broker was handed exactly the multi-leg
order built from the proposal: each leg's broker side is the image of
(proposal side, leg side) under OPEN/SELL↦sell_to_open,
OPEN/BUY↦buy_to_open, CLOSE/SELL↦buy_to_close, CLOSE/BUY↦sell_to_close;
the order type is `credit` for OPEN and `debit` for CLOSE; the duration is
`day`; and the limit price is the proposal's price. -/
theorem C7_execution_mapping (c : RiskConfig) (env : EvalEnv) (exec : ExecEnv)
    (req : GateRequest) (st0 : GateState) (p : TradeProposal)
    (resp : HttpResponse) (st2 : GateState)
    (hbody : req.body = some p)
    (hrun : processProposal c env exec req st0 = (resp, st2))
    (h200 : resp.status = 200) :
    ∃ oid, resp.body = RespBody.approved oid p.id
      ∧ exec.placeOrder (buildMultilegOrder p) = Except.ok oid
      ∧ (buildMultilegOrder p).sides = p.legs.map (fun l => mapLegSide p.side l.side)
      ∧ mapLegSide ProposalSide.OPEN LegSide.SELL = BrokerLegSide.sell_to_open
      ∧ mapLegSide ProposalSide.OPEN LegSide.BUY = BrokerLegSide.buy_to_open
      ∧ mapLegSide ProposalSide.CLOSE LegSide.SELL = BrokerLegSide.buy_to_close
      ∧ mapLegSide ProposalSide.CLOSE LegSide.BUY = BrokerLegSide.sell_to_close
      ∧ (buildMultilegOrder p).orderType
          = (if p.side = ProposalSide.OPEN then "credit" else "debit")
      ∧ (buildMultilegOrder p).duration = "day"
      ∧ (buildMultilegOrder p).price = p.price := by
  simp only [processProposal, hbody] at hrun
  cases hx : extractSignatureFromHeaders req.headers with
  | none =>
    simp only [hx] at hrun
    rw [Prod.mk.injEq] at hrun
    rw [← hrun.1] at h200
    simp at h200
  | some sig =>
    simp only [hx] at hrun
    cases hst : (evaluateProposal c env st0 p).1.status with
    | REJECTED =>
      simp only [hst] at hrun
      rw [Prod.mk.injEq] at hrun
      rw [← hrun.1] at h200
      simp at h200
    | APPROVED =>
      simp only [hst] at hrun
      by_cases hsup : (p.side = ProposalSide.CLOSE ∨ p.strategy ∈ supportedStrategies)
      · rw [if_pos hsup] at hrun
        cases hord : exec.placeOrder (buildMultilegOrder p) with
        | error e =>
          simp only [hord] at hrun
          rw [Prod.mk.injEq] at hrun
          rw [← hrun.1] at h200
          simp at h200
        | ok oid =>
          simp only [hord] at hrun
          rw [Prod.mk.injEq] at hrun
          refine ⟨oid, ?_, rfl, rfl, rfl, rfl, rfl, rfl, rfl, rfl, rfl⟩
          rw [← hrun.1]
      · rw [if_neg hsup] at hrun
        rw [Prod.mk.injEq] at hrun
        rw [← hrun.1] at h200
        simp at h200

/-- Claim C7, witness: the sample approved OPEN credit spread is executed
through the broker with the mapped sides, `credit` type, `day` duration
and the proposal's limit price. -/
theorem C7_witness :
    (({ headers := sampleHeaders, body := some sampleOpenProposal } : GateRequest)).body
        = some sampleOpenProposal
    ∧ (processProposal CONSTITUTION sampleEnv sampleExecOk
        { headers := sampleHeaders, body := some sampleOpenProposal } sampleState).1.status
        = 200
    ∧ ∃ oid,
        (processProposal CONSTITUTION sampleEnv sampleExecOk
          { headers := sampleHeaders, body := some sampleOpenProposal } sampleState).1.body
          = RespBody.approved oid sampleOpenProposal.id
        ∧ sampleExecOk.placeOrder (buildMultilegOrder sampleOpenProposal) = Except.ok oid
        ∧ (buildMultilegOrder sampleOpenProposal).sides
            = sampleOpenProposal.legs.map (fun l => mapLegSide sampleOpenProposal.side l.side)
        ∧ mapLegSide ProposalSide.OPEN LegSide.SELL = BrokerLegSide.sell_to_open
        ∧ mapLegSide ProposalSide.OPEN LegSide.BUY = BrokerLegSide.buy_to_open
        ∧ mapLegSide ProposalSide.CLOSE LegSide.SELL = BrokerLegSide.buy_to_close
        ∧ mapLegSide ProposalSide.CLOSE LegSide.BUY = BrokerLegSide.sell_to_close
        ∧ (buildMultilegOrder sampleOpenProposal).orderType
            = (if sampleOpenProposal.side = ProposalSide.OPEN then "credit" else "debit")
        ∧ (buildMultilegOrder sampleOpenProposal).duration = "day"
        ∧ (buildMultilegOrder sampleOpenProposal).price = sampleOpenProposal.price := by
  refine ⟨rfl, by decide, ?_⟩
  exact C7_execution_mapping CONSTITUTION sampleEnv sampleExecOk
    { headers := sampleHeaders, body := some sampleOpenProposal } sampleState
    sampleOpenProposal
    (processProposal CONSTITUTION sampleEnv sampleExecOk
      { headers := sampleHeaders, body := some sampleOpenProposal } sampleState).1
    (processProposal CONSTITUTION sampleEnv sampleExecOk
      { headers := sampleHeaders, body := some sampleOpenProposal } sampleState).2
    rfl rfl (by decide)

/-- Claim C8: when an approved proposal's broker order submission fails,
the Gate answers HTTP 500 with `APPROVED_BUT_EXECUTION_FAILED` and the
diagnostic error, the proposal's ledger row is present with status
APPROVED, and no position metadata (and no order row) is recorded. -/
theorem C8_execution_failure (c : RiskConfig) (env : EvalEnv) (exec : ExecEnv)
    (req : GateRequest) (st0 : GateState) (p : TradeProposal) (sig e : String)
    (hsig : extractSignatureFromHeaders req.headers = some sig)
    (hbody : req.body = some p)
    (happr : (evaluateProposal c env st0 p).1.status = ProposalStatus.APPROVED)
    (hsup : p.side = ProposalSide.CLOSE ∨ p.strategy ∈ supportedStrategies)
    (hfail : exec.placeOrder (buildMultilegOrder p) = Except.error e) :
    (processProposal c env exec req st0).1
      = { status := 500, body := RespBody.approvedButExecutionFailed e }
    ∧ (∃ row, (processProposal c env exec req st0).2.proposals = st0.proposals ++ [row]
        ∧ row.id = p.id ∧ row.status = ProposalStatus.APPROVED)
    ∧ (processProposal c env exec req st0).2.positionMetadata = st0.positionMetadata
    ∧ (processProposal c env exec req st0).2.orders = st0.orders := by
  have htab := evaluateProposal_snd_tables c env st0 p
  simp only [processProposal, hsig, hbody, happr, if_pos hsup, hfail]
  refine ⟨trivial, ⟨⟨p.id, Int.fdiv p.timestamp 1000, p.symbol, p.strategy, p.side, p.quantity,
      ProposalStatus.APPROVED, (evaluateProposal c env st0 p).1.rejectionReason⟩,
      ?_, rfl, rfl⟩, ?_, ?_⟩
  · rw [htab.1]
  · exact htab.2.2
  · exact htab.2.1

/-- Claim C8, witness: the sample approved proposal against a broker whose
order submission fails. -/
theorem C8_witness :
    extractSignatureFromHeaders sampleHeaders = some "ab3f"
    ∧ (evaluateProposal CONSTITUTION sampleEnv sampleState sampleOpenProposal).1.status
        = ProposalStatus.APPROVED
    ∧ (sampleOpenProposal.side = ProposalSide.CLOSE
        ∨ sampleOpenProposal.strategy ∈ supportedStrategies)
    ∧ sampleExecFail.placeOrder (buildMultilegOrder sampleOpenProposal)
        = Except.error "Tradier API error (400)"
    ∧ (processProposal CONSTITUTION sampleEnv sampleExecFail
        { headers := sampleHeaders, body := some sampleOpenProposal } sampleState).1
        = { status := 500
          , body := RespBody.approvedButExecutionFailed "Tradier API error (400)" }
    ∧ (processProposal CONSTITUTION sampleEnv sampleExecFail
        { headers := sampleHeaders, body := some sampleOpenProposal }
        sampleState).2.positionMetadata = sampleState.positionMetadata := by
  have H := C8_execution_failure CONSTITUTION sampleEnv sampleExecFail
    { headers := sampleHeaders, body := some sampleOpenProposal } sampleState
    sampleOpenProposal "ab3f" "Tradier API error (400)"
    (by decide) rfl (by decide) (by decide) rfl
  exact ⟨by decide, by decide, by decide, rfl, H.1, H.2.2.1⟩
